import Mathlib

/-!
Shallow embedding of the rent-estimation acquisition pipeline of `main.py`
(class `RentEstimator` and its helpers), together with proofs about the
properties of that pipeline.

Conventions used throughout:
* Python `float` values (bed/bath counts, dollar amounts) are modelled as
  rationals `ℚ`; every Python float is a rational number and none of the
  code paths modelled here depend on rounding.
* Stateful code (the selenium browser, the TOR subprocess, the mutable
  `self.estimates` list) is modelled by explicit state passing over the
  record `MachineState`.
* External interactions (the probe of the "Analyze" button, the pages the
  site returns) are inputs to the model: a `World` scripts the outcomes the
  environment produces, and the embedded functions consume it.
* Python exceptions are modelled by the explicit result type `StepRes`;
  `diverge` marks executions whose scripted outcomes ran out (where the
  real, unbounded loop would keep blocking) so that every function is total.
-/

namespace RE

/-- Dollar amounts (`DollarAmount = float` in `types_.py`) as rationals. -/
abbrev DollarAmount := ℚ

/-- `Unit` dataclass from `main.py`: bed and bath counts of one rentable unit. -/
structure Unit where
  beds : ℚ
  baths : ℚ
deriving DecidableEq, Repr

/-- `EstimateType` enum from `main.py`. -/
inductive EstimateType where
  | AVERAGE
  | MEDIAN
  | PERCENTILE_25
  | PERCENTILE_75
deriving DecidableEq, Repr

/-- `RentEstimatedUnit` dataclass: a unit paired with one monthly-rent figure. -/
structure RentEstimatedUnit where
  unit : Unit
  monthly_rent : DollarAmount
deriving DecidableEq, Repr

/-- `RentEstimate` dataclass: the group of per-unit estimates of one
`EstimateType`.  A `list RentEstimate` is the `EstimateCollection` of the
spec. -/
structure RentEstimate where
  units : List RentEstimatedUnit
  type : EstimateType
deriving DecidableEq, Repr

/-- Python `str.split(sep)` for a one-character separator, on explicit
character lists (`"a$b".split('$') == ["a","b"]`, `"".split('$') == [""]`). -/
def splitOnChar (sep : Char) : List Char → List (List Char)
  | [] => [[]]
  | c :: cs =>
    let r := splitOnChar sep cs
    if c = sep then [] :: r
    else
      match r with
      | [] => [[c]]
      | g :: gs => (c :: g) :: gs

/-- Python's substring test `needle in hay` on character lists. -/
def containsSub (needle : List Char) : List Char → Bool
  | [] => needle.isEmpty
  | c :: cs => needle.isPrefixOf (c :: cs) || containsSub needle cs

/-- Value of a digit string, accumulator style; `none` if a non-digit occurs. -/
def digitsVal : List Char → ℕ → Option ℕ
  | [], acc => some acc
  | c :: cs, acc => if c.isDigit then digitsVal cs (acc * 10 + (c.toNat - 48)) else none

/-- Unsigned decimal literal (`"123"`, `"1.5"`, `".00"`, `"7."`): the grammar
accepted by C `strtod`/Python `float` restricted to the plain decimal forms
the scraped pages produce.  At least one digit must be present. -/
def parseDecimal (l : List Char) : Option ℚ :=
  match splitOnChar '.' l with
  | [intPart] =>
    if intPart.isEmpty then none
    else (digitsVal intPart 0).map (fun n => mkRat n 1)
  | [intPart, fracPart] =>
    if intPart.isEmpty && fracPart.isEmpty then none
    else
      match digitsVal intPart 0, digitsVal fracPart 0 with
      | some a, some b => some (mkRat (a * 10 ^ fracPart.length + b) (10 ^ fracPart.length))
      | _, _ => none
  | _ => none

/-- `locale.atof` under a host locale whose numeric conventions use `','`
as the thousands separator and `'.'` as the decimal point (the conventions
`setlocale(LC_NUMERIC, '')` selects on the machine this code targets):
thousands separators are dropped, then the decimal literal is parsed.
`none` models the `ValueError` Python raises on malformed input. -/
def atofLocale (l : List Char) : Option ℚ :=
  parseDecimal (l.filter (fun c => c ≠ ','))

/-- `extract_dollar_value` from `main.py`:
`DollarAmount(atof(stat.text.split('$')[-1]))` — parse the text after the
last `'$'`. -/
def extract_dollar_value (s : String) : Option DollarAmount :=
  atofLocale ((splitOnChar '$' s.data).getLastD [])

/-- The bathroom-filter selection of `enter_listing_info_and_click_analyze`
(`main.py` lines 444–455).  The returned string is the `<option>` *value*
passed to `select_by_value`: `"1"` renders as "1 Only", `"1.5"` as
"1½ or more", and `""` as "Any". -/
def bathsFilter (baths : ℚ) : String :=
  if baths = 1 then "1"
  else if baths > 1 then "1.5"
  else ""

/-- The marker line the TOR startup loop waits for (`main.py` line 343). -/
def torBootMarker : List Char := "100% (done): Done".data

/-- Does one line of TOR's stdout contain the bootstrap-done marker? -/
def lineHasMarker (l : List Char) : Bool := containsSub torBootMarker l

/-- The `while True: line = stdout.readline()` loop of
`_get_unthrottled_tor_browser` (`main.py` lines 340–344), operationally.
The stream is the list of lines the TOR process emits before it exits or
closes its stdout; after the stream is exhausted `readline()` returns the
empty line `b''` immediately, and the loop keeps iterating.  `fuel` bounds
the number of loop iterations observed; `some rest` means the loop exited
(marker seen) leaving `rest` unread, `none` means the loop was still
running after `fuel` iterations. -/
def readUntilDone : ℕ → List (List Char) → Option (List (List Char))
  | 0, _ => none
  | fuel + 1, [] => readUntilDone fuel []
  | fuel + 1, l :: rest => if lineHasMarker l then some rest else readUntilDone fuel rest

/-- Possible fates of the TOR-startup wait, in the vocabulary of the spec:
the spec asserts a `StartupFailed` outcome which the code never produces. -/
inductive TorStartOutcome where
  | established
  | startupFailed
  | blocksForever
deriving DecidableEq, Repr

/-- Denotation of the TOR startup wait loop: it terminates (circuit
established) exactly when some emitted line contains the marker, and
otherwise runs forever; no error is ever raised.  `readUntilDone` is the
step-indexed version; the correspondence is proved below. -/
def torStartOutcome (lines : List (List Char)) : TorStartOutcome :=
  if lines.any (fun l => lineHasMarker l) then .established else .blocksForever

theorem readUntilDone_nil : ∀ fuel, readUntilDone fuel [] = none := by
  intro fuel
  induction fuel with
  | zero => rfl
  | succ n ih => simpa [readUntilDone] using ih

theorem readUntilDone_none_of_no_marker (lines : List (List Char))
    (h : ∀ l ∈ lines, lineHasMarker l = false) : ∀ fuel, readUntilDone fuel lines = none := by
  induction lines with
  | nil => exact readUntilDone_nil
  | cons l rest ih =>
    intro fuel
    cases fuel with
    | zero => rfl
    | succ n =>
      have hl : lineHasMarker l = false := h l (List.mem_cons_self l rest)
      have hrest : ∀ x ∈ rest, lineHasMarker x = false := fun x hx => h x (List.mem_cons_of_mem l hx)
      simp [readUntilDone, hl]
      exact ih hrest n

theorem torStartOutcome_blocks (lines : List (List Char))
    (h : ∀ l ∈ lines, lineHasMarker l = false) : torStartOutcome lines = .blocksForever := by
  have : lines.any (fun l => lineHasMarker l) = false := by
    simp only [List.any_eq_false]
    exact fun l hl => by simp [h l hl]
  simp [torStartOutcome, this]

/-- Exceptions that can arise in the embedded pipeline.  `staleSession`
models the selenium `WebDriverException`/`InvalidSessionIdException` raised
when an element handle belonging to a quit browser session is used;
`valueError` models `locale.atof` failing; `injected` models an arbitrary
unexpected exception scripted by the test world; `cacheReadError` models a
non-`FileNotFoundError` failure while reading the cache file. -/
inductive Err where
  | staleSession
  | valueError
  | injected
  | cacheReadError
deriving DecidableEq, Repr

/-- What the site shows after one submission of the analyze form: whether
the "Sorry, there are not enough results…" banner is present
(`check_not_enough_results`), and the texts of the `box-stats` elements of
the page (`find_elements_by_class_name("box-stats")`). -/
structure PageResult where
  notEnoughResults : Bool
  stats : List String
deriving DecidableEq, Repr

/-- Scripted environment outcomes for one call of
`enter_listing_info_and_click_analyze`: whether the pre-submission re-check
finds the "Analyze" button disabled, and the page the site produces for the
submission. -/
structure AttemptScript where
  recheckDisabled : Bool
  page : PageResult
deriving DecidableEq, Repr

/-- Scripted environment outcomes for one unit of the listing: the first
submission and the broadened ("Any" baths) retry submission.  `attempt2` is
consumed only when the first page reports not-enough-results. -/
structure UnitScript where
  attempt1 : AttemptScript
  attempt2 : AttemptScript
deriving DecidableEq, Repr

/-- Injection point for an arbitrary unexpected exception, modelling the
run-level `except Exception` clause of `RentEstimator.estimate`: no fault,
a fault while acquiring the initial session pair, or a fault at the start
of processing the unit at the given index. -/
inductive Fault where
  | noFault
  | atAcquire
  | beforeUnit (i : ℕ)
deriving DecidableEq, Repr

/-- Everything the environment decides during one run: the successive
outcomes of the "Analyze"-button probe of `_get_unthrottled_tor_browser`
(`true` = disabled), one `UnitScript` per unit, and an optional fault. -/
structure World where
  probes : List Bool
  scripts : List UnitScript
  fault : Fault
deriving DecidableEq, Repr

/-- The mutable state of a run of `RentEstimator.estimate`:
`estimates` is `self.estimates`; `live` is the id of the current
(TOR, browser) session pair (`none` when torn down or not yet created);
`created`/`teardowns` count session pairs created and destroyed; `probes`
is the unconsumed probe script; `clicks` records the session id of each
successful `analyze_button.click()`; `bathSelections` records each value
passed to the baths selector's `select_by_value`; `statsReads` counts the
`find_elements_by_class_name("box-stats")` calls. -/
structure MachineState where
  estimates : List RentEstimate
  live : Option ℕ
  created : ℕ
  teardowns : ℕ
  probes : List Bool
  clicks : List ℕ
  bathSelections : List String
  statsReads : ℕ
deriving DecidableEq, Repr

/-- Result of one embedded step: normal completion, a raised Python
exception carrying the state at raise time, or exhaustion of the scripted
outcomes (where the real unbounded loop would keep going). -/
inductive StepRes (α : Type) where
  | diverge : StepRes α
  | err : MachineState → Err → StepRes α
  | ok : α → StepRes α
deriving DecidableEq, Repr

/-- `_nuke_tor_browser`: quit the browser and kill TOR; tolerates never
having been started (`AttributeError` is swallowed), so it is a no-op when
no session pair is live. -/
def nuke_tor_browser (st : MachineState) : MachineState :=
  match st.live with
  | none => st
  | some _ => { st with live := none, teardowns := st.teardowns + 1 }

/-- The `while analyze_button_disabled` loop of
`_get_unthrottled_tor_browser`: each iteration starts TOR, opens a browser
(one session pair created) and probes the "Analyze" button; a disabled
probe (`true`) closes the browser and kills TOR (one teardown) and retries;
an enabled probe keeps the pair, which becomes the live session.
`none` means the scripted probe outcomes ran out (the real loop would keep
retrying). -/
def acquireLoop (st : MachineState) : List Bool → Option MachineState
  | [] => none
  | b :: rest =>
    if b then
      acquireLoop
        { st with created := st.created + 1, teardowns := st.teardowns + 1, probes := rest } rest
    else
      some { st with created := st.created + 1, live := some (st.created + 1), probes := rest }

/-- `_get_unthrottled_tor_browser`, consuming the state's probe script. -/
def get_unthrottled_tor_browser (st : MachineState) : Option MachineState :=
  acquireLoop st st.probes

/-- `analyze_button.click()`: `handle` is the session the element was found
in; clicking succeeds only if that session is still the live one, otherwise
selenium raises (the session was quit). -/
def clickElement (st : MachineState) (handle : Option ℕ) (page : PageResult) :
    StepRes (MachineState × PageResult) :=
  match handle, st.live with
  | some h, some l =>
    if h = l then .ok ({ st with clicks := st.clicks ++ [h] }, page)
    else .err st .staleSession
  | _, _ => .err st .staleSession

/-- `enter_listing_info_and_click_analyze(pretty_address, beds, baths)`
(`main.py` lines 423–459): find the "Analyze" button in the current
browser; if it is disabled, nuke the session pair and acquire a fresh one;
then fill the form (recording the baths-filter selection) in the browser
`self.browser` now points to, and click the previously found button handle
— which, on the re-acquire path, still belongs to the torn-down session. -/
def enter_listing_info_and_click_analyze (st : MachineState) (_beds baths : ℚ)
    (a : AttemptScript) : StepRes (MachineState × PageResult) :=
  let btn := st.live
  if a.recheckDisabled then
    match get_unthrottled_tor_browser (nuke_tor_browser st) with
    | none => .diverge
    | some st2 =>
      let st3 := { st2 with bathSelections := st2.bathSelections ++ [bathsFilter baths] }
      clickElement st3 btn a.page
  else
    let st1 := { st with bathSelections := st.bathSelections ++ [bathsFilter baths] }
    clickElement st1 btn a.page

/-- First occurrence of a `RentEstimate` of the given type gets the new
`RentEstimatedUnit` appended to its `units` (the in-place mutation of
`estimate.units.append(...)` in `add_estimate`). -/
def updateFirstByType (t : EstimateType) (ru : RentEstimatedUnit) :
    List RentEstimate → List RentEstimate
  | [] => []
  | e :: es =>
    if e.type = t then { e with units := e.units ++ [ru] } :: es
    else e :: updateFirstByType t ru es

/-- `add_estimate(estimate_type, unit, monthly_rent)` (`main.py` lines
405–418): fetch the estimate of this type if it already exists (appending
the new `RentEstimatedUnit` to it), otherwise append a freshly created
estimate to the collection. -/
def add_estimate (estimates : List RentEstimate) (t : EstimateType) (u : Unit)
    (rent : DollarAmount) : List RentEstimate :=
  if estimates.any (fun e => e.type = t) then updateFirstByType t ⟨u, rent⟩ estimates
  else estimates ++ [⟨[⟨u, rent⟩], t⟩]

/-- The `for stat in stats` loop (`main.py` lines 517–531): branch on which
known label occurs in the box text (in source order), parse the dollar
value and add the estimate; unknown labels are logged and skipped.  Returns
the estimates accumulated so far together with the `ValueError` that
interrupted the loop, if any (earlier additions are retained because
`self.estimates` was mutated in place). -/
def parseStats (u : Unit) (est : List RentEstimate) :
    List String → List RentEstimate × Option Err
  | [] => (est, none)
  | s :: rest =>
    if containsSub "AVERAGE".data s.data then
      match extract_dollar_value s with
      | none => (est, some .valueError)
      | some v => parseStats u (add_estimate est .AVERAGE u v) rest
    else if containsSub "MEDIAN".data s.data then
      match extract_dollar_value s with
      | none => (est, some .valueError)
      | some v => parseStats u (add_estimate est .MEDIAN u v) rest
    else if containsSub "25TH PERCENTILE".data s.data then
      match extract_dollar_value s with
      | none => (est, some .valueError)
      | some v => parseStats u (add_estimate est .PERCENTILE_25 u v) rest
    else if containsSub "75TH PERCENTILE".data s.data then
      match extract_dollar_value s with
      | none => (est, some .valueError)
      | some v => parseStats u (add_estimate est .PERCENTILE_75 u v) rest
    else parseStats u est rest

/-- The statistics-parsing phase for the page currently in the browser
(`main.py` lines 506–535): one `find_elements_by_class_name("box-stats")`
read, then the per-box loop. -/
def parsePhase (st : MachineState) (u : Unit) (page : PageResult) : StepRes MachineState :=
  match parseStats u st.estimates page.stats with
  | (est2, none) => .ok { st with estimates := est2, statsReads := st.statsReads + 1 }
  | (est2, some e) => .err { st with estimates := est2, statsReads := st.statsReads + 1 } e

/-- The zero-valued estimates recorded for a unit after the broadened retry
also reports not-enough-results (`main.py` lines 499–504), in source order:
AVERAGE, MEDIAN, PERCENTILE_25, PERCENTILE_75. -/
def addFourZeros (u : Unit) (est : List RentEstimate) : List RentEstimate :=
  add_estimate
    (add_estimate (add_estimate (add_estimate est .AVERAGE u 0) .MEDIAN u 0) .PERCENTILE_25 u 0)
    .PERCENTILE_75 u 0

/-- The body of `for unit in listing.units` (`main.py` lines 483–535):
submit with the unit's own baths; on a not-enough-results banner retry with
baths `-1` ("Any"); if the banner appears again, record four zero-valued
estimates.  The `continue` of line 504 only continues the inner
estimate-kind loop, so control then falls through to the statistics parse
of the page currently shown, in every branch. -/
def processUnit (st : MachineState) (u : Unit) (sc : UnitScript) : StepRes MachineState :=
  match enter_listing_info_and_click_analyze st u.beds u.baths sc.attempt1 with
  | .diverge => .diverge
  | .err s e => .err s e
  | .ok (st1, page1) =>
    if page1.notEnoughResults then
      match enter_listing_info_and_click_analyze st1 u.beds (-1) sc.attempt2 with
      | .diverge => .diverge
      | .err s e => .err s e
      | .ok (st2, page2) =>
        if page2.notEnoughResults then
          parsePhase { st2 with estimates := addFourZeros u st2.estimates } u page2
        else parsePhase st2 u page2
    else parsePhase st1 u page1

/-- The unit loop, with the scripted fault injection: a fault scheduled
before unit `i` models an unexpected exception raised at that point of the
loop.  A unit without a script diverges (no scripted outcome). -/
def runUnits (fault : Fault) : MachineState → List Unit → List UnitScript → ℕ →
    StepRes MachineState
  | st, [], _, _ => .ok st
  | st, u :: us, sc :: scs, i =>
    if fault = .beforeUnit i then .err st .injected
    else
      match processUnit st u sc with
      | .diverge => .diverge
      | .err s e => .err s e
      | .ok st' => runUnits fault st' us scs (i + 1)
  | _, _ :: _, [], _ => .diverge

/-- State of the on-disk cache entry for the listing's address: no file
(`FileNotFoundError` on open), a readable entry holding a pickled
collection, or a file whose read/deserialization raises some other
exception. -/
inductive CacheState where
  | absent
  | present (c : List RentEstimate)
  | unreadable
deriving DecidableEq, Repr

/-- How the call of `RentEstimator.estimate` ends for its caller: a
returned collection, or a propagated exception. -/
inductive RunOutcome where
  | returned (c : List RentEstimate)
  | raised (e : Err)
deriving DecidableEq, Repr

/-- Observable summary of one call of `RentEstimator.estimate`. -/
structure RunResult where
  outcome : RunOutcome
  created : ℕ
  teardowns : ℕ
  cachedWrite : Option (List RentEstimate)
  clicks : List ℕ
  bathSelections : List String
  statsReads : ℕ
deriving DecidableEq, Repr

/-- The `finally` block of `RentEstimator.estimate` (`main.py` lines
539–547) followed by the `return self.estimates`: write the collection to
the cache iff it is non-empty, nuke the session pair, return the
collection. -/
def finalize (st : MachineState) : RunResult :=
  let cw := if st.estimates = [] then none else some st.estimates
  let st2 := nuke_tor_browser st
  ⟨.returned st.estimates, st2.created, st2.teardowns, cw, st2.clicks, st2.bathSelections,
    st2.statsReads⟩

/-- Initial run state. -/
def initState (w : World) : MachineState :=
  ⟨[], none, 0, 0, w.probes, [], [], 0⟩

/-- `RentEstimator.estimate(listing)` (`main.py` lines 387–549).
Cache hit: return the deserialized collection immediately (before any
session is created and outside the `try/finally`).  A cache file that
exists but cannot be read raises out of `estimate` (only
`FileNotFoundError` is absorbed).  Cache miss: acquire an unthrottled
session pair, run the unit loop — any exception inside is caught at the
run level — and finalize.  `none` marks runs whose scripted outcomes ran
out (the real code would still be blocking in an unbounded loop). -/
def estimate (cache : CacheState) (units : List Unit) (w : World) : Option RunResult :=
  match cache with
  | .present c => some ⟨.returned c, 0, 0, none, [], [], 0⟩
  | .unreadable => some ⟨.raised .cacheReadError, 0, 0, none, [], [], 0⟩
  | .absent =>
    let st0 := initState w
    if w.fault = .atAcquire then some (finalize st0)
    else
      match get_unthrottled_tor_browser st0 with
      | none => none
      | some st1 =>
        match runUnits w.fault st1 units w.scripts 0 with
        | .diverge => none
        | .err st2 _ => some (finalize st2)
        | .ok st2 => some (finalize st2)

/-- The per-kind grouping discipline of the collection: each
`EstimateType` is the key of at most one `RentEstimate` group. -/
def typesNodup (c : List RentEstimate) : Prop := (c.map RentEstimate.type).Nodup

/-- Session accounting: sessions torn down plus the live one, if any. -/
def sessCount (st : MachineState) : ℕ :=
  st.teardowns + (if st.live.isSome then 1 else 0)

/-- Run invariant: the kind groups are uniquely keyed and every created
session pair is either torn down or the live one. -/
def StInv (st : MachineState) : Prop :=
  typesNodup st.estimates ∧ sessCount st = st.created

/-- Invariant transported across a step producing a state. -/
def resInv (x : StepRes MachineState) : Prop :=
  match x with
  | .diverge => True
  | .err s _ => StInv s
  | .ok s => StInv s

/-- Invariant transported across a step producing a state and a page. -/
def resInvP (x : StepRes (MachineState × PageResult)) : Prop :=
  match x with
  | .diverge => True
  | .err s _ => StInv s
  | .ok (s, _) => StInv s

theorem updateFirstByType_map_type (t : EstimateType) (ru : RentEstimatedUnit) :
    ∀ es : List RentEstimate,
      (updateFirstByType t ru es).map RentEstimate.type = es.map RentEstimate.type := by
  intro es
  induction es with
  | nil => rfl
  | cons e es ih =>
    by_cases h : e.type = t <;> simp [updateFirstByType, h, ih]

theorem add_estimate_typesNodup {est : List RentEstimate} {t : EstimateType} {u : Unit}
    {rent : DollarAmount} (h : typesNodup est) : typesNodup (add_estimate est t u rent) := by
  unfold add_estimate
  split
  · unfold typesNodup
    rw [updateFirstByType_map_type]
    exact h
  · rename_i hna
    have hnot : ∀ e ∈ est, ¬ e.type = t := by
      intro e he
      by_contra hc
      exact hna (List.any_eq_true.2 ⟨e, he, by simp [hc]⟩)
    unfold typesNodup
    rw [List.map_append]
    refine List.Nodup.append h (by simp) ?_
    intro x hx hx'
    simp only [List.map_cons, List.map_nil, List.mem_singleton] at hx'
    rcases List.mem_map.1 hx with ⟨e, he, rfl⟩
    exact hnot e he hx'

theorem addFourZeros_typesNodup {est : List RentEstimate} {u : Unit}
    (h : typesNodup est) : typesNodup (addFourZeros u est) :=
  add_estimate_typesNodup (add_estimate_typesNodup (add_estimate_typesNodup
    (add_estimate_typesNodup h)))

theorem parseStats_typesNodup (u : Unit) :
    ∀ (stats : List String) (est : List RentEstimate), typesNodup est →
      typesNodup (parseStats u est stats).1 := by
  intro stats
  induction stats with
  | nil => intro est h; simpa [parseStats] using h
  | cons s rest ih =>
    intro est h
    unfold parseStats
    split_ifs <;>
      first
        | (cases hx : extract_dollar_value s <;> simp only [hx] <;>
            first
              | simpa using h
              | exact ih _ (add_estimate_typesNodup h))
        | exact ih _ h

theorem nuke_estimates (st : MachineState) :
    (nuke_tor_browser st).estimates = st.estimates := by
  cases h : st.live <;> simp [nuke_tor_browser, h]

theorem nuke_created (st : MachineState) :
    (nuke_tor_browser st).created = st.created := by
  cases h : st.live <;> simp [nuke_tor_browser, h]

theorem nuke_live (st : MachineState) : (nuke_tor_browser st).live = none := by
  cases h : st.live <;> simp [nuke_tor_browser, h]

theorem nuke_sessCount (st : MachineState) :
    sessCount (nuke_tor_browser st) = sessCount st := by
  cases h : st.live <;> simp [nuke_tor_browser, sessCount, h]

theorem nuke_StInv {st : MachineState} (h : StInv st) : StInv (nuke_tor_browser st) := by
  refine ⟨?_, ?_⟩
  · rw [nuke_estimates]; exact h.1
  · rw [nuke_sessCount, nuke_created]; exact h.2

theorem acquireLoop_spec :
    ∀ (l : List Bool) (st st' : MachineState), acquireLoop st l = some st' →
      st'.estimates = st.estimates ∧
      (st.live = none → sessCount st = st.created → sessCount st' = st'.created) := by
  intro l
  induction l with
  | nil => intro st st' h; simp [acquireLoop] at h
  | cons b rest ih =>
    intro st st' h
    unfold acquireLoop at h
    split_ifs at h
    · rcases ih _ _ h with ⟨h1, h2⟩
      refine ⟨h1, fun hl hs => h2 (by simp [hl]) ?_⟩
      simp [sessCount, hl] at hs ⊢
      omega
    · rcases Option.some.inj h with rfl
      refine ⟨rfl, fun hl hs => ?_⟩
      simp [sessCount, hl] at hs ⊢
      omega

theorem acquire_StInv {st st' : MachineState} (hl : st.live = none) (h : StInv st)
    (ha : get_unthrottled_tor_browser st = some st') : StInv st' := by
  rcases acquireLoop_spec st.probes st st' ha with ⟨h1, h2⟩
  exact ⟨by rw [h1]; exact h.1, h2 hl h.2⟩

theorem clickElement_resInvP {st : MachineState} {handle : Option ℕ} {page : PageResult}
    (h : StInv st) : resInvP (clickElement st handle page) := by
  unfold clickElement
  rcases handle with _ | hh <;> rcases hlive : st.live with _ | l <;>
    simp [resInvP, hlive, h]
  split_ifs <;> exact ⟨h.1, by simpa [sessCount, hlive] using h.2⟩

theorem enterInfo_resInvP (st : MachineState) (beds baths : ℚ) (a : AttemptScript)
    (h : StInv st) :
    resInvP (enter_listing_info_and_click_analyze st beds baths a) := by
  unfold enter_listing_info_and_click_analyze
  split_ifs
  · cases ha : get_unthrottled_tor_browser (nuke_tor_browser st) with
    | none => simp [resInvP]
    | some st2 =>
      simp only
      have h2 : StInv st2 := acquire_StInv (nuke_live st) (nuke_StInv h) ha
      exact clickElement_resInvP ⟨h2.1, by simpa [sessCount] using h2.2⟩
  · exact clickElement_resInvP ⟨h.1, by simpa [sessCount] using h.2⟩

theorem parsePhase_resInv {st : MachineState} {u : Unit} {page : PageResult}
    (h : StInv st) : resInv (parsePhase st u page) := by
  unfold parsePhase
  have hn := parseStats_typesNodup u page.stats st.estimates h.1
  cases hp : parseStats u st.estimates page.stats with
  | mk est2 oe =>
    rw [hp] at hn
    cases oe <;> exact ⟨hn, by simpa [sessCount] using h.2⟩

theorem processUnit_resInv (st : MachineState) (u : Unit) (sc : UnitScript)
    (h : StInv st) : resInv (processUnit st u sc) := by
  unfold processUnit
  have h1 := enterInfo_resInvP st u.beds u.baths sc.attempt1 h
  cases he1 : enter_listing_info_and_click_analyze st u.beds u.baths sc.attempt1 with
  | diverge => simp [resInv]
  | err s e => rw [he1] at h1; exact h1
  | ok p =>
    rcases p with ⟨st1, page1⟩
    rw [he1] at h1
    simp only [resInvP] at h1
    dsimp only
    split_ifs
    · have h2 := enterInfo_resInvP st1 u.beds (-1) sc.attempt2 h1
      cases he2 : enter_listing_info_and_click_analyze st1 u.beds (-1) sc.attempt2 with
      | diverge => simp [resInv]
      | err s e => rw [he2] at h2; exact h2
      | ok p2 =>
        rcases p2 with ⟨st2, page2⟩
        rw [he2] at h2
        simp only [resInvP] at h2
        dsimp only
        split_ifs
        · exact parsePhase_resInv ⟨addFourZeros_typesNodup h2.1, h2.2⟩
        · exact parsePhase_resInv h2
    · exact parsePhase_resInv h1

theorem runUnits_resInv (f : Fault) :
    ∀ (us : List Unit) (scs : List UnitScript) (i : ℕ) (st : MachineState), StInv st →
      resInv (runUnits f st us scs i) := by
  intro us
  induction us with
  | nil => intro scs i st h; simpa [runUnits, resInv] using h
  | cons u us ih =>
    intro scs i st h
    cases scs with
    | nil => simp [runUnits, resInv]
    | cons sc scs =>
      unfold runUnits
      split_ifs
      · exact h
      · have hp := processUnit_resInv st u sc h
        cases hpu : processUnit st u sc with
        | diverge => simp [resInv]
        | err s e => rw [hpu] at hp; exact hp
        | ok st' =>
          rw [hpu] at hp
          exact ih scs (i + 1) st' hp

theorem finalize_spec {st : MachineState} (h : StInv st) :
    ∃ c, (finalize st).outcome = .returned c ∧
      (finalize st).cachedWrite = (if c = [] then none else some c) ∧
      (finalize st).teardowns = (finalize st).created ∧ typesNodup c := by
  refine ⟨st.estimates, rfl, rfl, ?_, h.1⟩
  have h2 := h.2
  show (nuke_tor_browser st).teardowns = (nuke_tor_browser st).created
  cases hl : st.live <;> simp [nuke_tor_browser, hl, sessCount] at h2 ⊢ <;> omega

theorem initState_StInv (w : World) : StInv (initState w) := by
  exact ⟨by simp [typesNodup, initState], by simp [sessCount, initState]⟩

/-- Master specification of a cache-miss run: exceptions never escape, the
returned collection is cached exactly when non-empty, every created session
pair is torn down, and the kind groups are uniquely keyed. -/
theorem estimate_absent_spec (units : List Unit) (w : World) (r : RunResult)
    (h : estimate .absent units w = some r) :
    ∃ c, r.outcome = .returned c ∧
      r.cachedWrite = (if c = [] then none else some c) ∧
      r.teardowns = r.created ∧ typesNodup c := by
  unfold estimate at h
  dsimp only at h
  split_ifs at h
  · rcases Option.some.inj h with rfl
    exact finalize_spec (initState_StInv w)
  · cases ha : get_unthrottled_tor_browser (initState w) with
    | none => rw [ha] at h; simp at h
    | some st1 =>
      rw [ha] at h
      dsimp only at h
      have h1 : StInv st1 := acquire_StInv rfl (initState_StInv w) ha
      have h2 := runUnits_resInv w.fault units w.scripts 0 st1 h1
      cases hr : runUnits w.fault st1 units w.scripts 0 with
      | diverge => rw [hr] at h; simp at h
      | err st2 e =>
        rw [hr] at h
        dsimp only at h
        rcases Option.some.inj h with rfl
        rw [hr] at h2
        exact finalize_spec h2
      | ok st2 =>
        rw [hr] at h
        dsimp only at h
        rcases Option.some.inj h with rfl
        rw [hr] at h2
        exact finalize_spec h2

/-- At most one `UnitEstimate` per distinct `Unit` (distinctness by
beds/baths value) inside each kind group — the per-`Unit` uniqueness the
spec asserts for `EstimateCollection`. -/
def perUnitUnique (c : List RentEstimate) : Prop :=
  ∀ e ∈ c, (e.units.map RentEstimatedUnit.unit).Nodup

/-- Claim C1: for every listing whose address already has a cache entry,
`RentEstimator.estimate` returns exactly the cached collection (the
deserialized contents of the cache file), and no network or browser
session is created during the call (and nothing is written back). -/
theorem C1_cache_hit_returns_cached_without_sessions
    (c : List RentEstimate) (units : List Unit) (w : World) :
    estimate (.present c) units w = some ⟨.returned c, 0, 0, none, [], [], 0⟩ := rfl

/-- Claim C10: the cache check absorbs only the missing-file case; a cache
entry that exists but cannot be read or deserialized makes `estimate` raise
to its caller before the run-level fault boundary: no session is created,
nothing is cached, no collection is returned. -/
theorem C10_unreadable_cache_entry_propagates (units : List Unit) (w : World) :
    estimate .unreadable units w = some ⟨.raised .cacheReadError, 0, 0, none, [], [], 0⟩ := rfl

/-- Claim C5: the bathroom-filter mapping is total and deterministic (it is
a Lean function on ℚ, the type modelling the Python floats), and satisfies:
baths = 1 selects option value `"1"` ("1 Only"), baths > 1 selects `"1.5"`
("1½ or more"), baths ≤ 0 selects `""` ("Any"). -/
theorem C5_baths_filter_mapping (baths : ℚ) :
    (baths = 1 → bathsFilter baths = "1") ∧
    (1 < baths → bathsFilter baths = "1.5") ∧
    (baths ≤ 0 → bathsFilter baths = "") := by
  refine ⟨fun h => by simp [bathsFilter, h], fun h => ?_, fun h => ?_⟩
  · have h1 : baths ≠ 1 := ne_of_gt h
    simp [bathsFilter, h1, h]
  · have h1 : baths ≠ 1 := by
      intro he
      rw [he] at h
      norm_num at h
    have h2 : ¬ baths > 1 := by
      intro hc
      linarith
    simp [bathsFilter, h1, h2]

theorem C5_baths_filter_mapping_witness :
    bathsFilter 1 = "1" ∧ bathsFilter 2 = "1.5" ∧ bathsFilter (-1) = "" :=
  ⟨(C5_baths_filter_mapping 1).1 rfl,
   (C5_baths_filter_mapping 2).2.1 (by norm_num),
   (C5_baths_filter_mapping (-1)).2.2 (by norm_num)⟩

/-- Claim C9: the currency parser maps `"$1,234.56"` to the dollar amount
`1234.56` and `"$.00"` to `0.0`, parsing the text after the last `'$'`
under the host locale's comma-grouped numeric conventions. -/
theorem C9_currency_parsing :
    extract_dollar_value "$1,234.56" = some (1234.56 : ℚ) ∧
    extract_dollar_value "$.00" = some 0 := by
  constructor
  · have h : extract_dollar_value "$1,234.56" = some (mkRat 123456 100) := by decide
    rw [h]
    exact congrArg some (by norm_num)
  · decide

/-- Claim C6: with the submission control disabled on the first two session
acquisitions and enabled on the third, the acquire/probe loop performs
exactly 3 acquire-and-probe cycles (3 pairs created, one teardown after
each of the 2 disabled probes) and the unit queries then run in the 3rd
session pair (the single analyze click happens in session 3; the final
teardown count 3 includes the end-of-run teardown). -/
theorem C6_quota_recovery_three_cycles (rest : List Bool) :
    (∀ st : MachineState,
      acquireLoop st (true :: true :: false :: rest) =
        some { st with created := st.created + 3, teardowns := st.teardowns + 2,
                       live := some (st.created + 3), probes := rest }) ∧
    estimate .absent [⟨2, 1⟩]
        ⟨true :: true :: false :: rest,
         [⟨⟨false, ⟨false, []⟩⟩, ⟨false, ⟨false, []⟩⟩⟩], .noFault⟩ =
      some ⟨.returned [], 3, 3, none, [3], ["1"], 1⟩ :=
  ⟨fun _ => rfl, rfl⟩

/-- Claim C4: no exception raised during session acquisition or the
per-unit query loop escapes `RentEstimator.estimate`: every run that the
scripted outcomes can finish returns a collection (it never raises), writes
that collection to the cache exactly when it is non-empty, and tears down
every session pair it created. -/
theorem C4_run_level_fault_containment (units : List Unit) (w : World) (r : RunResult)
    (h : estimate .absent units w = some r) :
    ∃ c, r.outcome = .returned c ∧
      r.cachedWrite = (if c = [] then none else some c) ∧
      r.teardowns = r.created := by
  rcases estimate_absent_spec units w r h with ⟨c, h1, h2, h3, _⟩
  exact ⟨c, h1, h2, h3⟩

theorem C4_run_level_fault_containment_witness :
    ∃ c,
      RunOutcome.returned [⟨[⟨⟨2, 1⟩, 1000⟩], EstimateType.AVERAGE⟩] = .returned c ∧
      (some [⟨[⟨⟨2, 1⟩, 1000⟩], EstimateType.AVERAGE⟩] : Option (List RentEstimate)) =
        (if c = [] then none else some c) ∧
      (1 : ℕ) = 1 :=
  C4_run_level_fault_containment [⟨2, 1⟩, ⟨1, 1⟩, ⟨3, 1⟩]
    ⟨[false],
     [⟨⟨false, ⟨false, ["AVERAGE $1,000.00"]⟩⟩, ⟨false, ⟨false, []⟩⟩⟩,
      ⟨⟨false, ⟨false, ["AVERAGE $1,100.00"]⟩⟩, ⟨false, ⟨false, []⟩⟩⟩,
      ⟨⟨false, ⟨false, ["AVERAGE $1,000.00"]⟩⟩, ⟨false, ⟨false, []⟩⟩⟩], .beforeUnit 1⟩
    ⟨.returned [⟨[⟨⟨2, 1⟩, 1000⟩], .AVERAGE⟩], 1, 1,
      some [⟨[⟨⟨2, 1⟩, 1000⟩], .AVERAGE⟩], [1], ["1"], 1⟩ (by decide)

/-- Claim C3 fails on the code: a listing with two units of equal
beds/baths (a perfectly ordinary multi-family configuration) whose queries
both succeed yields an AVERAGE group holding two `UnitEstimate`s for the
same distinct `Unit` ⟨2, 1⟩ — `add_estimate` never deduplicates by unit. -/
theorem C3_per_unit_uniqueness_counterexample :
    estimate .absent [⟨2, 1⟩, ⟨2, 1⟩]
        ⟨[false],
         [⟨⟨false, ⟨false, ["AVERAGE $1,000.00"]⟩⟩, ⟨false, ⟨false, []⟩⟩⟩,
          ⟨⟨false, ⟨false, ["AVERAGE $1,100.00"]⟩⟩, ⟨false, ⟨false, []⟩⟩⟩], .noFault⟩ =
      some ⟨.returned [⟨[⟨⟨2, 1⟩, 1000⟩, ⟨⟨2, 1⟩, 1100⟩], .AVERAGE⟩], 1, 1,
        some [⟨[⟨⟨2, 1⟩, 1000⟩, ⟨⟨2, 1⟩, 1100⟩], .AVERAGE⟩], [1, 1], ["1", "1"], 2⟩ ∧
    ¬ perUnitUnique [⟨[⟨⟨2, 1⟩, 1000⟩, ⟨⟨2, 1⟩, 1100⟩], .AVERAGE⟩] := by
  refine ⟨by decide, ?_⟩
  simp only [perUnitUnique]
  decide

/-- Claim C3 (amended): at the point the collection is returned and cached,
each `EstimateType` is the key of at most one group of the collection (the
groups are uniquely keyed by kind); but a group may hold several
`UnitEstimate`s for the same beds/baths value (one per unit occurrence
processed), so per-distinct-`Unit` uniqueness inside a group does not hold
in general. -/
theorem C3_kind_groups_uniquely_keyed (units : List Unit) (w : World) (r : RunResult)
    (c : List RentEstimate) (h : estimate .absent units w = some r)
    (ho : r.outcome = .returned c) :
    typesNodup c ∧ ∀ cw, r.cachedWrite = some cw → typesNodup cw := by
  rcases estimate_absent_spec units w r h with ⟨c2, h1, h2, _, h4⟩
  rw [ho] at h1
  rcases RunOutcome.returned.inj h1 with rfl
  refine ⟨h4, fun cw hcw => ?_⟩
  rw [h2] at hcw
  split_ifs at hcw
  rcases Option.some.inj hcw with rfl
  exact h4

theorem C3_kind_groups_uniquely_keyed_witness :
    typesNodup [⟨[⟨⟨2, 1⟩, 1000⟩], EstimateType.AVERAGE⟩] :=
  (C3_kind_groups_uniquely_keyed [⟨2, 1⟩]
    ⟨[false], [⟨⟨false, ⟨false, ["AVERAGE $1,000.00"]⟩⟩, ⟨false, ⟨false, []⟩⟩⟩], .noFault⟩
    ⟨.returned [⟨[⟨⟨2, 1⟩, 1000⟩], .AVERAGE⟩], 1, 1,
      some [⟨[⟨⟨2, 1⟩, 1000⟩], .AVERAGE⟩], [1], ["1"], 1⟩
    [⟨[⟨⟨2, 1⟩, 1000⟩], .AVERAGE⟩] (by decide) rfl).1

/-- Claim C2 against the code, at the failing input: a single unit whose
exact-bath and "Any"-bath attempts both report insufficient results.  The
four zero-valued estimates are recorded, but the `statsReads := 1` field of
both runs shows the statistic-box query and parse ARE then attempted for
the failed unit (the `continue` of `main.py` line 504 only continues the
inner estimate-kind loop); the second run, whose retry page carries an
AVERAGE box, even records a fifth, non-zero estimate for the failed unit.  -/
theorem C2_failed_unit_still_parses_stat_boxes :
    (estimate .absent [⟨2, 1⟩]
        ⟨[false], [⟨⟨false, ⟨true, []⟩⟩, ⟨false, ⟨true, []⟩⟩⟩], .noFault⟩ =
      some ⟨.returned [⟨[⟨⟨2, 1⟩, 0⟩], .AVERAGE⟩, ⟨[⟨⟨2, 1⟩, 0⟩], .MEDIAN⟩,
          ⟨[⟨⟨2, 1⟩, 0⟩], .PERCENTILE_25⟩, ⟨[⟨⟨2, 1⟩, 0⟩], .PERCENTILE_75⟩], 1, 1,
        some [⟨[⟨⟨2, 1⟩, 0⟩], .AVERAGE⟩, ⟨[⟨⟨2, 1⟩, 0⟩], .MEDIAN⟩,
          ⟨[⟨⟨2, 1⟩, 0⟩], .PERCENTILE_25⟩, ⟨[⟨⟨2, 1⟩, 0⟩], .PERCENTILE_75⟩],
        [1, 1], ["1", ""], 1⟩) ∧
    (estimate .absent [⟨2, 1⟩]
        ⟨[false], [⟨⟨false, ⟨true, []⟩⟩, ⟨false, ⟨true, ["AVERAGE $500.00"]⟩⟩⟩], .noFault⟩ =
      some ⟨.returned [⟨[⟨⟨2, 1⟩, 0⟩, ⟨⟨2, 1⟩, 500⟩], .AVERAGE⟩, ⟨[⟨⟨2, 1⟩, 0⟩], .MEDIAN⟩,
          ⟨[⟨⟨2, 1⟩, 0⟩], .PERCENTILE_25⟩, ⟨[⟨⟨2, 1⟩, 0⟩], .PERCENTILE_75⟩], 1, 1,
        some [⟨[⟨⟨2, 1⟩, 0⟩, ⟨⟨2, 1⟩, 500⟩], .AVERAGE⟩, ⟨[⟨⟨2, 1⟩, 0⟩], .MEDIAN⟩,
          ⟨[⟨⟨2, 1⟩, 0⟩], .PERCENTILE_25⟩, ⟨[⟨⟨2, 1⟩, 0⟩], .PERCENTILE_75⟩],
        [1, 1], ["1", ""], 1⟩) := by
  constructor <;> decide

/-- Claim C8 against the code, at the failing input: the pre-submission
re-check finds the button disabled, the session pair is torn down and a
fresh one acquired (`created = 2`), the form is filled in the new session
(`bathSelections = ["1"]`) — but the click targets the stale button handle
of the quit session, so no submission ever happens (`clicks = []`), the
raised stale-session error aborts the run, and the unit's estimates are
never collected (`returned []`). -/
theorem C8_stale_click_after_reacquire :
    estimate .absent [⟨2, 1⟩]
        ⟨[false, false], [⟨⟨true, ⟨false, []⟩⟩, ⟨false, ⟨false, []⟩⟩⟩], .noFault⟩ =
      some ⟨.returned [], 2, 2, none, [], ["1"], 0⟩ := by decide

/-- Claim C7 fails on the code: when the TOR process's status stream closes
before the "circuit established" marker line appears (here: immediately),
the startup wait blocks forever — it neither fails with a `StartupFailed`
error (no such failure exists in the code) nor succeeds; after 1000 loop
iterations it is still running. -/
theorem C7_startup_failed_counterexample :
    torStartOutcome [] = .blocksForever ∧
    torStartOutcome [] ≠ .startupFailed ∧
    readUntilDone 1000 [] = none :=
  ⟨rfl, by decide, readUntilDone_nil 1000⟩

/-- Claim C7 (amended): when the process exits or its status stream closes
before any emitted line contains the "circuit established" marker, the
session startup neither succeeds nor fails with an error: the wait loop
runs forever (for every number of iterations it has neither exited nor
raised), re-reading the empty line the closed stream returns. -/
theorem C7_stream_close_blocks_forever (lines : List (List Char))
    (h : ∀ l ∈ lines, lineHasMarker l = false) :
    torStartOutcome lines = .blocksForever ∧ ∀ fuel, readUntilDone fuel lines = none :=
  ⟨torStartOutcome_blocks lines h, readUntilDone_none_of_no_marker lines h⟩

theorem C7_stream_close_blocks_forever_witness :
    torStartOutcome ["Bootstrapped 50%: Loading relay descriptors".data] = .blocksForever ∧
    readUntilDone 7 ["Bootstrapped 50%: Loading relay descriptors".data] = none :=
  ⟨(C7_stream_close_blocks_forever ["Bootstrapped 50%: Loading relay descriptors".data]
      (by decide)).1,
   (C7_stream_close_blocks_forever ["Bootstrapped 50%: Loading relay descriptors".data]
      (by decide)).2 7⟩

end RE
